import Mathlib

/-!
Shallow embedding of the eko-gc crate (src/eko-gc/src/lib.rs) in Lean 4.

Modelling conventions:

* The Rust lifetime parameter `'gc` (the arena "brand") is modelled as an
  explicit `brand : Nat` index.  In the source, `Arena::new` is a safe public
  constructor `pub fn new() -> Arena<'gc>` whose lifetime parameter is chosen
  freely by the caller (it is an unconstrained parameter of the `impl`, and the
  only occurrence of `'gc` inside `Arena` is the covariant
  `PhantomData<&'gc ()>`); accordingly the embedded `Arena.new` takes the brand
  as a caller-chosen argument, with no freshness constraint — exactly the
  freedom the source grants.

* `RefCell<'gc, T>` wraps `std::cell::RefCell<T>` (lib.rs lines 93-105), whose
  runtime state is a borrow flag plus the stored value.  The flag follows
  `std::cell`: `0` = unborrowed, `n > 0` = `n` outstanding shared borrows,
  negative = exclusively (mutably) borrowed.  The flag is an unbounded `Int`
  (the `isize` overflow guard of `std::cell` is out of scope).

* The borrow guards `Ref` / `RefMut` (lib.rs lines 148-178) are represented in
  state-passing style: a successful `borrow` / `borrow_mut` returns the cell
  with its flag updated, and the guard's `Drop` (which in `std::cell`
  decrements / clears the flag) is the explicit `drop_ref` / `drop_ref_mut`
  step.  `Ref::deref` / `RefMut::deref` read `value`; an assignment through
  `RefMut::deref_mut` replaces `value` (`deref_mut_set`).

* `eko_gc::RefCell::borrow` and `borrow_mut` (lib.rs lines 130-144) call the
  PANICKING `std::cell` variants `borrow()` / `borrow_mut()`; only the `Debug`
  impl (lines 107-128) uses the fallible `try_borrow()`.  A panic is an
  unrecoverable fault, not an error value the caller receives, so the
  embedding keeps the two shapes distinct: `try_borrow` returns
  `Except BorrowError _` (std's error value), while `borrow` / `borrow_mut`
  return `PanicOr _`, whose `panic` constructor models the std borrow-conflict
  panic.

* `Gc<'gc, T>` (lib.rs lines 24-91) wraps `Rc<T>`.  The heap of `Rc`
  allocations is an explicit `Store`: a list indexed by address, each live
  entry holding the strong reference count together with the value (as in an
  `RcBox`), `none` marking storage that was freed when the count reached zero.
  A `Gc` handle is its allocation's address; `Rc::new` appends a fresh entry
  with count 1, `Clone` increments the count at the same address, `ptr_eq` is
  address equality, and `Deref` reads the value, `none` meaning the pointee is
  gone (impossible in Rust while a handle exists — proved here, not assumed).

* The `Trace` marker trait (trace.rs) has no methods; it is modelled as a
  typeclass with no fields, with the instances trace.rs declares.
-/

set_option maxHeartbeats 1000000

namespace EkoGc

/-- The `Trace` marker capability (src/eko-gc/src/trace.rs):
`pub unsafe trait Trace {}` — no methods, purely a marker. -/
class Trace (T : Type) : Prop where

instance : Trace Bool := ⟨⟩
instance : Trace Int := ⟨⟩
instance : Trace Nat := ⟨⟩
instance : Trace String := ⟨⟩
instance {T : Type} [Trace T] : Trace (List T) := ⟨⟩
instance {T : Type} [Trace T] : Trace (Option T) := ⟨⟩

/-- `pub struct Arena<'gc> { phantom: PhantomData<&'gc ()> }` (lib.rs 12-14).
The arena holds no runtime data; its brand is the (modelled) lifetime index. -/
structure Arena (brand : Nat) where
  phantom : Unit := ()
  deriving Repr, DecidableEq

/-- `Arena::new` (lib.rs 16-22): `pub fn new() -> Arena<'gc>`.  The brand is
chosen by the caller — nothing in the source constrains `'gc` or makes it
fresh, so the embedding exposes that choice as an argument. -/
def Arena.new (brand : Nat) : Arena brand :=
  { phantom := () }

/-- `pub struct RefCell<'gc, T> { phantom, data: std::cell::RefCell<T> }`
(lib.rs 93-96), with the inner std cell expanded into its runtime state:
the borrow flag plus the stored value.  The flag follows `std::cell`:
`0` unborrowed, positive = shared-borrow count, negative = writing. -/
structure RefCell (brand : Nat) (T : Type) where
  flag : Int
  value : T
  deriving Repr, DecidableEq

/-- std's `BorrowError` value, returned by `try_borrow` (used only by the
`Debug` impl in this crate). -/
structure BorrowError where
  deriving Repr, DecidableEq

/-- Outcome of an operation that, in the source, either returns a value or
PANICS (an unrecoverable fault; no error value reaches the caller). -/
inductive PanicOr (A : Type) where
  | panic
  | ok (val : A)
  deriving Repr, DecidableEq

/-- `RefCell::new` (lib.rs 98-105): wraps `std::cell::RefCell::new(data)`,
whose initial borrow flag is `UNUSED = 0`. -/
def RefCell.new {brand : Nat} {T : Type} [Trace T] (_arena : Arena brand) (data : T) :
    RefCell brand T :=
  { flag := 0, value := data }

/-- std's `RefCell::try_borrow`: succeeds (incrementing the flag) iff the cell
is not being written, i.e. the flag is non-negative; otherwise returns the
`BorrowError` value. -/
def RefCell.try_borrow {brand : Nat} {T : Type} (c : RefCell brand T) :
    Except BorrowError (RefCell brand T) :=
  if 0 ≤ c.flag then .ok { c with flag := c.flag + 1 } else .error {}

/-- `RefCell::borrow` (lib.rs 131-136): calls `self.data.borrow()`, the
panicking std variant — a borrow conflict is a panic, not an error value. -/
def RefCell.borrow {brand : Nat} {T : Type} (c : RefCell brand T) :
    PanicOr (RefCell brand T) :=
  match c.try_borrow with
  | .ok c1 => .ok c1
  | .error _ => .panic

/-- std's `RefCell::try_borrow_mut`: succeeds iff the flag is `UNUSED = 0`,
setting it to `-1` (writing); otherwise returns the error value. -/
def RefCell.try_borrow_mut {brand : Nat} {T : Type} (c : RefCell brand T) :
    Except BorrowError (RefCell brand T) :=
  if c.flag = 0 then .ok { c with flag := -1 } else .error {}

/-- `RefCell::borrow_mut` (lib.rs 138-143): calls `self.data.borrow_mut()`,
the panicking std variant — a borrow conflict is a panic, not an error value. -/
def RefCell.borrow_mut {brand : Nat} {T : Type} (c : RefCell brand T) :
    PanicOr (RefCell brand T) :=
  match c.try_borrow_mut with
  | .ok c1 => .ok c1
  | .error _ => .panic

/-- `Drop` of a shared guard (std's `BorrowRef`, held by `Ref`, lib.rs
148-159): decrements the shared-borrow count. -/
def RefCell.drop_ref {brand : Nat} {T : Type} (c : RefCell brand T) :
    RefCell brand T :=
  { c with flag := c.flag - 1 }

/-- `Drop` of an exclusive guard (std's `BorrowRefMut`, held by `RefMut`,
lib.rs 161-178): releases the write borrow (flag `-1` back to `0`). -/
def RefCell.drop_ref_mut {brand : Nat} {T : Type} (c : RefCell brand T) :
    RefCell brand T :=
  { c with flag := c.flag + 1 }

/-- `Ref::deref` / `RefMut::deref` (lib.rs 153-172): a guard's read view is
the cell's stored value. -/
def RefCell.guard_deref {brand : Nat} {T : Type} (c : RefCell brand T) : T :=
  c.value

/-- An assignment `*guard = x` through `RefMut::deref_mut` (lib.rs 174-178):
replaces the stored value in place. -/
def RefCell.deref_mut_set {brand : Nat} {T : Type} (c : RefCell brand T) (x : T) :
    RefCell brand T :=
  { c with value := x }

/-- `impl fmt::Debug for RefCell` (lib.rs 107-128): `try_borrow`; on success
render the value inside `RefCell \x7b value: .. \x7d` and drop the temporary
guard; on failure (cell mutably borrowed) render the `<borrowed>` placeholder
without touching the borrow state.  `dbg` stands for the pointee's
`fmt::Debug`.  Returns the rendered text together with the cell state after
formatting.  Total: no panic outcome exists on this path in the source. -/
def RefCell.fmt {brand : Nat} {T : Type} (dbg : T → String) (c : RefCell brand T) :
    String × RefCell brand T :=
  match c.try_borrow with
  | .ok c1 => ("RefCell \x7b value: " ++ dbg c1.value ++ " \x7d", c1.drop_ref)
  | .error _ => ("RefCell \x7b value: <borrowed> \x7d", c)

/-- The heap of `Rc` allocations of pointee type `T`: index = address; a live
entry is `some (count, value)` (strong count ≥ 1 together with the value, as
in the `RcBox`); `none` is storage already freed (count reached zero). -/
structure Store (T : Type) where
  allocs : List (Option (Nat × T))
  deriving Repr, DecidableEq

/-- The empty heap. -/
def Store.empty {T : Type} : Store T :=
  { allocs := [] }

/-- `pub struct Gc<'gc, T> { data: Rc<T>, phantom }` (lib.rs 24-27): a handle
is the address of its `Rc` allocation, branded by its arena's (modelled)
lifetime. -/
structure Gc (brand : Nat) (T : Type) where
  addr : Nat
  deriving Repr, DecidableEq

/-- `Gc::new` (lib.rs 30-35): `Rc::new(data)` makes a fresh allocation with
strong count 1; the arena argument is unused at runtime (`_arena`), it only
supplies the brand. -/
def Gc.new {brand : Nat} {T : Type} [Trace T] (_arena : Arena brand) (s : Store T)
    (data : T) : Gc brand T × Store T :=
  ({ addr := s.allocs.length }, { allocs := s.allocs ++ [some (1, data)] })

/-- `Gc::ptr_eq` (lib.rs 37-39): `Rc::ptr_eq`, i.e. address equality. -/
def Gc.ptr_eq {brand : Nat} {T : Type} (g1 g2 : Gc brand T) : Bool :=
  g1.addr == g2.addr

/-- `impl Clone for Gc` (lib.rs 42-49): `self.data.clone()` increments the
strong count of the SAME allocation and returns a handle at the same
address. -/
def Gc.clone {brand : Nat} {T : Type} (s : Store T) (g : Gc brand T) :
    Gc brand T × Store T :=
  match s.allocs[g.addr]? with
  | some (some (n, v)) =>
    ({ addr := g.addr }, { allocs := s.allocs.set g.addr (some (n + 1, v)) })
  | _ => ({ addr := g.addr }, s)

/-- `Drop` of an `Rc` handle: decrement the strong count; when it reaches
zero the storage is freed (`none`). -/
def Gc.drop {brand : Nat} {T : Type} (s : Store T) (g : Gc brand T) : Store T :=
  match s.allocs[g.addr]? with
  | some (some (n + 2, v)) => { allocs := s.allocs.set g.addr (some (n + 1, v)) }
  | some (some (1, _)) => { allocs := s.allocs.set g.addr none }
  | _ => s

/-- `impl Deref for Gc` (lib.rs 83-89): read the pointee.  `some` when the
allocation is live; `none` models a dangling address, which `Rc` makes
unreachable while any handle exists. -/
def Gc.deref {brand : Nat} {T : Type} (s : Store T) (g : Gc brand T) : Option T :=
  match s.allocs[g.addr]? with
  | some (some (_, v)) => some v
  | _ => none

/-- The strong reference count of a handle's allocation (0 if freed or
out of range).  Each live handle owns one unit of this count. -/
def Gc.strong_count {brand : Nat} {T : Type} (s : Store T) (g : Gc brand T) : Nat :=
  match s.allocs[g.addr]? with
  | some (some (n, _)) => n
  | _ => 0

/-- `impl PartialEq for Gc` (lib.rs 51-55): `self.data == other.data`
forwards `Rc`'s `PartialEq`, which compares the pointed-to values with `T`'s
equality `eqT` (never the addresses). -/
def Gc.eq {brand : Nat} {T : Type} (eqT : T → T → Bool) (s : Store T)
    (g1 g2 : Gc brand T) : Option Bool :=
  match Gc.deref s g1, Gc.deref s g2 with
  | some v1, some v2 => some (eqT v1 v2)
  | _, _ => none

/-- `impl PartialOrd for Gc` (lib.rs 59-63): forwards to the pointees'
`partial_cmp` `pc`. -/
def Gc.partial_cmp {brand : Nat} {T : Type} (pc : T → T → Option Ordering)
    (s : Store T) (g1 g2 : Gc brand T) : Option (Option Ordering) :=
  match Gc.deref s g1, Gc.deref s g2 with
  | some v1, some v2 => some (pc v1 v2)
  | _, _ => none

/-- `impl Ord for Gc` (lib.rs 65-69): forwards to the pointees' `cmp` `cm`. -/
def Gc.cmp {brand : Nat} {T : Type} (cm : T → T → Ordering) (s : Store T)
    (g1 g2 : Gc brand T) : Option Ordering :=
  match Gc.deref s g1, Gc.deref s g2 with
  | some v1, some v2 => some (cm v1 v2)
  | _, _ => none

/-- `impl Hash for Gc` (lib.rs 71-75): `self.data.hash(state)` hashes the
pointed-to value with `T`'s hasher `hs` (never the address). -/
def Gc.hash {brand : Nat} {T : Type} (hs : T → Nat) (s : Store T)
    (g : Gc brand T) : Option Nat :=
  (Gc.deref s g).map hs

/-- The composite `*handle.borrow_mut() = x` on a `Gc<RefCell<T>>` handle:
`Deref` to the cell, `borrow_mut` (panics on conflict), assign through the
guard, guard drops.  The updated cell lives at the SAME address — this is an
in-place interior mutation, rendered in state-passing style. -/
def Gc.set_interior {brand : Nat} {T : Type} (s : Store (RefCell brand T))
    (g : Gc brand (RefCell brand T)) (x : T) : PanicOr (Store (RefCell brand T)) :=
  match s.allocs[g.addr]? with
  | some (some (n, c)) =>
    match c.borrow_mut with
    | .ok c1 =>
      .ok { allocs := s.allocs.set g.addr (some (n, ((c1.deref_mut_set x).drop_ref_mut))) }
    | .panic => .panic
  | _ => .panic

/-- The composite `*handle.borrow()` on a `Gc<RefCell<T>>` handle: `Deref` to
the cell, `borrow` (panics on conflict), read through the guard, guard drops.
The temporary flag increment is undone by the drop, so only the value is
returned. -/
def Gc.read_interior {brand : Nat} {T : Type} (s : Store (RefCell brand T))
    (g : Gc brand (RefCell brand T)) : PanicOr T :=
  match s.allocs[g.addr]? with
  | some (some (_, c)) =>
    match c.borrow with
    | .ok c1 => .ok c1.guard_deref
    | .panic => .panic
  | _ => .panic

/-- A use site that expects a `Gc` carrying the same brand as a given arena:
models `fn use_under<'gc>(a: &Arena<'gc>, g: Gc<'gc, T>) -> T` — cross-arena
use would be "statically rejected" exactly if this application failed to
type-check for a handle made by a different arena. -/
def use_under {brand : Nat} {T : Type} (_a : Arena brand) (s : Store T)
    (g : Gc brand T) : Option T :=
  Gc.deref s g

/-- Helper: `borrow` succeeds, incrementing the shared count, whenever the
cell is not being written (flag non-negative). -/
theorem RefCell.borrow_of_nonneg {brand : Nat} {T : Type} (c : RefCell brand T)
    (h : 0 ≤ c.flag) : c.borrow = PanicOr.ok { c with flag := c.flag + 1 } := by
  simp [RefCell.borrow, RefCell.try_borrow, h]

/-- Helper: `borrow` panics when the cell is being written (flag negative). -/
theorem RefCell.borrow_of_neg {brand : Nat} {T : Type} (c : RefCell brand T)
    (h : c.flag < 0) : c.borrow = PanicOr.panic := by
  simp [RefCell.borrow, RefCell.try_borrow, not_le.mpr h]

/-- Helper: `borrow_mut` succeeds, marking the cell writing, exactly from the
unborrowed state. -/
theorem RefCell.borrow_mut_of_zero {brand : Nat} {T : Type} (c : RefCell brand T)
    (h : c.flag = 0) : c.borrow_mut = PanicOr.ok { c with flag := -1 } := by
  simp [RefCell.borrow_mut, RefCell.try_borrow_mut, h]

/-- Helper: `borrow_mut` panics whenever any borrow is outstanding. -/
theorem RefCell.borrow_mut_of_nonzero {brand : Nat} {T : Type} (c : RefCell brand T)
    (h : c.flag ≠ 0) : c.borrow_mut = PanicOr.panic := by
  simp [RefCell.borrow_mut, RefCell.try_borrow_mut, h]

/-- C2 counterexample: from a fresh cell, take one shared borrow (the guard
is alive: flag 1); `borrow_mut` on that cell is the PANIC outcome — the
source delegates to the panicking `std::cell::RefCell::borrow_mut`, so the
borrow conflict is an unrecoverable fault, and no recoverable error value
exists in `borrow_mut`'s result type for the caller to retry on. -/
theorem C2_counterexample :
    RefCell.borrow (RefCell.new (Arena.new 0) (0 : Int)) =
      PanicOr.ok (⟨1, 0⟩ : RefCell 0 Int) ∧
    RefCell.borrow_mut (⟨1, (0 : Int)⟩ : RefCell 0 Int) = PanicOr.panic := by
  exact ⟨by decide, by decide⟩

/-- C2 (amended): while a shared borrow guard is alive (positive flag),
`borrow_mut` fails with the unrecoverable borrow-conflict panic (not a
recoverable error value); once the single outstanding guard is dropped, the
same `borrow_mut` call succeeds and marks the cell exclusively borrowed,
preserving the stored value. -/
theorem C2_theorem (brand : Nat) (T : Type) (c : RefCell brand T) :
    (0 < c.flag → c.borrow_mut = PanicOr.panic) ∧
    (c.flag = 1 → ∃ c2, (c.drop_ref).borrow_mut = PanicOr.ok c2 ∧
      c2.flag = -1 ∧ c2.value = c.value) := by
  constructor
  · intro h
    exact RefCell.borrow_mut_of_nonzero c (by omega)
  · intro h
    refine ⟨_, RefCell.borrow_mut_of_zero c.drop_ref ?_, rfl, rfl⟩
    show c.flag - 1 = 0
    omega

/-- C2 witness: the amended theorem applied at the concrete one-guard cell. -/
theorem C2_witness :
    (0 < (⟨1, (0 : Int)⟩ : RefCell 0 Int).flag) ∧
    ((⟨1, (0 : Int)⟩ : RefCell 0 Int).flag = 1) ∧
    RefCell.borrow_mut (⟨1, (0 : Int)⟩ : RefCell 0 Int) = PanicOr.panic ∧
    (∃ c2, ((⟨1, (0 : Int)⟩ : RefCell 0 Int).drop_ref).borrow_mut = PanicOr.ok c2 ∧
      c2.flag = -1 ∧ c2.value = 0) :=
  ⟨by decide, by decide, (C2_theorem 0 Int ⟨1, 0⟩).1 (by decide),
    (C2_theorem 0 Int ⟨1, 0⟩).2 (by decide)⟩

/-- C6: on a cell that is not exclusively borrowed, two successive `borrow`
calls (the first guard still alive during the second) both succeed; and
`borrow` panics with a borrow conflict exactly when the cell is currently
exclusively borrowed (negative flag). -/
theorem C6_theorem (brand : Nat) (T : Type) (c : RefCell brand T) :
    (0 ≤ c.flag → ∃ c1 c2, c.borrow = PanicOr.ok c1 ∧ c1.borrow = PanicOr.ok c2) ∧
    (c.borrow = PanicOr.panic ↔ c.flag < 0) := by
  constructor
  · intro h
    refine ⟨_, _, RefCell.borrow_of_nonneg c h, RefCell.borrow_of_nonneg _ ?_⟩
    show (0 : Int) ≤ c.flag + 1
    omega
  · constructor
    · intro hp
      by_contra hn
      push_neg at hn
      rw [RefCell.borrow_of_nonneg c hn] at hp
      exact PanicOr.noConfusion hp
    · exact RefCell.borrow_of_neg c

/-- C6 witness: both halves of the theorem at concrete cells — a fresh cell
admits two concurrent shared borrows, an exclusively borrowed cell panics. -/
theorem C6_witness :
    (∃ c1 c2, (⟨0, (0 : Int)⟩ : RefCell 0 Int).borrow = PanicOr.ok c1 ∧
      c1.borrow = PanicOr.ok c2) ∧
    (⟨-1, (0 : Int)⟩ : RefCell 0 Int).borrow = PanicOr.panic :=
  ⟨(C6_theorem 0 Int ⟨0, 0⟩).1 (by decide), (C6_theorem 0 Int ⟨-1, 0⟩).2.mpr (by decide)⟩

/-- C8: on an exclusively borrowed cell, `Debug` formatting does not attempt
the conflicting borrow (the function is total — no panic outcome exists on
this path): it renders the opaque placeholder and leaves the cell state
untouched. -/
theorem C8_theorem (brand : Nat) (T : Type) (dbg : T → String) (c : RefCell brand T)
    (h : c.flag < 0) :
    RefCell.fmt dbg c = ("RefCell \x7b value: <borrowed> \x7d", c) := by
  simp [RefCell.fmt, RefCell.try_borrow, not_le.mpr h]

/-- C8 witness: the theorem at a concrete exclusively borrowed cell. -/
theorem C8_witness :
    ((⟨-1, (0 : Int)⟩ : RefCell 0 Int).flag < 0) ∧
    RefCell.fmt (fun _ => "0") (⟨-1, (0 : Int)⟩ : RefCell 0 Int) =
      ("RefCell \x7b value: <borrowed> \x7d", ⟨-1, 0⟩) :=
  ⟨by decide, C8_theorem 0 Int (fun _ => "0") ⟨-1, 0⟩ (by decide)⟩

/-- C9: store-then-load round trip — from a cell with no outstanding borrows,
`borrow_mut` succeeds; assigning `x` through the guard and dropping it makes
a subsequent `borrow` succeed and read exactly `x` through its guard. -/
theorem C9_theorem (brand : Nat) (T : Type) (c : RefCell brand T) (x : T)
    (h : c.flag = 0) :
    ∃ c1 c2, c.borrow_mut = PanicOr.ok c1 ∧
      ((c1.deref_mut_set x).drop_ref_mut).borrow = PanicOr.ok c2 ∧
      c2.guard_deref = x := by
  refine ⟨_, _, RefCell.borrow_mut_of_zero c h, RefCell.borrow_of_nonneg _ ?_, rfl⟩
  show (0 : Int) ≤ -1 + 1
  omega

/-- C9 witness: the theorem at a concrete unborrowed cell, writing 9 over 5. -/
theorem C9_witness :
    ((⟨0, (5 : Int)⟩ : RefCell 0 Int).flag = 0) ∧
    (∃ c1 c2, (⟨0, (5 : Int)⟩ : RefCell 0 Int).borrow_mut = PanicOr.ok c1 ∧
      ((c1.deref_mut_set 9).drop_ref_mut).borrow = PanicOr.ok c2 ∧
      c2.guard_deref = 9) :=
  ⟨by decide, C9_theorem 0 Int ⟨0, 5⟩ 9 (by decide)⟩

/-- C10: `Debug` formatting is effect-free on the cell — the state after
formatting equals the state before (in the unborrowed/shared case the
temporary shared borrow is released before returning), so every `borrow` or
`borrow_mut` has exactly the same outcome after formatting as before. -/
theorem C10_theorem (brand : Nat) (T : Type) (dbg : T → String) (c : RefCell brand T) :
    (RefCell.fmt dbg c).2 = c ∧
    ((RefCell.fmt dbg c).2).borrow = c.borrow ∧
    ((RefCell.fmt dbg c).2).borrow_mut = c.borrow_mut := by
  have hstate : (RefCell.fmt dbg c).2 = c := by
    by_cases h : 0 ≤ c.flag
    · simp [RefCell.fmt, RefCell.try_borrow, h, RefCell.drop_ref]
    · simp [RefCell.fmt, RefCell.try_borrow, h]
  exact ⟨hstate, by rw [hstate], by rw [hstate]⟩

/-- C3: `Gc::new` followed by an immediate `Deref` yields exactly the stored
value; and dereferencing any handle whose allocation still has a positive
strong count (i.e. while any handle to the storage exists — each live handle
owns one count unit, and storage is freed only when the count reaches zero)
succeeds. -/
theorem C3_theorem (brand : Nat) (T : Type) [Trace T] (a : Arena brand) (s : Store T)
    (v : T) (g : Gc brand T) (h : 0 < Gc.strong_count s g) :
    Gc.deref (Gc.new a s v).2 (Gc.new a s v).1 = some v ∧
    ∃ w, Gc.deref s g = some w := by
  constructor
  · simp [Gc.new, Gc.deref, List.getElem?_concat_length]
  · unfold Gc.strong_count at h
    unfold Gc.deref
    cases hm : s.allocs[g.addr]? with
    | none => rw [hm] at h; simp at h
    | some e =>
      cases e with
      | none => rw [hm] at h; simp at h
      | some p => exact ⟨p.2, rfl⟩

/-- C3 witness: the theorem at a concrete store holding one live allocation. -/
theorem C3_witness :
    (0 < Gc.strong_count (⟨[some (1, (7 : Int))]⟩ : Store Int) (⟨0⟩ : Gc 0 Int)) ∧
    (Gc.deref (Gc.new (Arena.new 0) (⟨[some (1, (7 : Int))]⟩ : Store Int) 5).2
        (Gc.new (Arena.new 0) (⟨[some (1, (7 : Int))]⟩ : Store Int) 5).1 = some 5 ∧
     ∃ w, Gc.deref (⟨[some (1, (7 : Int))]⟩ : Store Int) (⟨0⟩ : Gc 0 Int) = some w) :=
  ⟨by decide, C3_theorem 0 Int (Arena.new 0) ⟨[some (1, 7)]⟩ 5 ⟨0⟩ (by decide)⟩

/-- C7: equality, ordering and hashing on `Gc` handles are forwarded
transparently to the pointed-to values — for any two live handles the result
is exactly the pointee operation applied to the dereferenced values, with the
handles' addresses playing no role. -/
theorem C7_theorem (brand : Nat) (T : Type) (eqT : T → T → Bool)
    (pc : T → T → Option Ordering) (cm : T → T → Ordering) (hs : T → Nat)
    (s : Store T) (g1 g2 : Gc brand T) (v1 v2 : T)
    (h1 : Gc.deref s g1 = some v1) (h2 : Gc.deref s g2 = some v2) :
    Gc.eq eqT s g1 g2 = some (eqT v1 v2) ∧
    Gc.partial_cmp pc s g1 g2 = some (pc v1 v2) ∧
    Gc.cmp cm s g1 g2 = some (cm v1 v2) ∧
    Gc.hash hs s g1 = some (hs v1) := by
  refine ⟨?_, ?_, ?_, ?_⟩ <;> simp [Gc.eq, Gc.partial_cmp, Gc.cmp, Gc.hash, h1, h2]

/-- C7 witness: the theorem at two distinct live allocations holding 3 and 4. -/
theorem C7_witness :
    (Gc.deref (⟨[some (1, (3 : Int)), some (1, 4)]⟩ : Store Int) (⟨0⟩ : Gc 0 Int) =
      some 3) ∧
    (Gc.deref (⟨[some (1, (3 : Int)), some (1, 4)]⟩ : Store Int) (⟨1⟩ : Gc 0 Int) =
      some 4) ∧
    (Gc.eq (fun x y => x == y) (⟨[some (1, (3 : Int)), some (1, 4)]⟩ : Store Int)
        (⟨0⟩ : Gc 0 Int) ⟨1⟩ = some ((3 : Int) == 4) ∧
     Gc.partial_cmp (fun x y => some (compare x y))
        (⟨[some (1, (3 : Int)), some (1, 4)]⟩ : Store Int) (⟨0⟩ : Gc 0 Int) ⟨1⟩ =
       some (some (compare (3 : Int) 4)) ∧
     Gc.cmp compare (⟨[some (1, (3 : Int)), some (1, 4)]⟩ : Store Int)
        (⟨0⟩ : Gc 0 Int) ⟨1⟩ = some (compare (3 : Int) 4) ∧
     Gc.hash Int.natAbs (⟨[some (1, (3 : Int)), some (1, 4)]⟩ : Store Int)
        (⟨0⟩ : Gc 0 Int) = some (Int.natAbs 3)) :=
  ⟨by decide, by decide,
    C7_theorem 0 Int (fun x y => x == y) (fun x y => some (compare x y)) compare
      Int.natAbs ⟨[some (1, 3), some (1, 4)]⟩ ⟨0⟩ ⟨1⟩ 3 4 (by decide) (by decide)⟩

/-- C5: `ptr_eq` reports storage aliasing, independent of value equality — a
clone aliases its original (`ptr_eq` true); two independent allocations, made
one after the other, sit at distinct addresses (`ptr_eq` false) even when
their values are equal, while the forwarded value equality on the same two
handles is true. -/
theorem C5_theorem (brand : Nat) (T : Type) [Trace T] (a : Arena brand)
    (eqT : T → T → Bool) (s : Store T) (g : Gc brand T) (v1 v2 : T)
    (h : eqT v1 v2 = true) :
    Gc.ptr_eq (Gc.clone s g).1 g = true ∧
    Gc.ptr_eq (Gc.new a s v1).1 (Gc.new a (Gc.new a s v1).2 v2).1 = false ∧
    Gc.eq eqT (Gc.new a (Gc.new a s v1).2 v2).2 (Gc.new a s v1).1
      (Gc.new a (Gc.new a s v1).2 v2).1 = some true := by
  refine ⟨?_, ?_, ?_⟩
  · unfold Gc.clone
    split <;> simp [Gc.ptr_eq]
  · simp only [Gc.new, Gc.ptr_eq, List.length_append, List.length_cons, List.length_nil]
    simp only [beq_eq_false_iff_ne, ne_eq]
    omega
  · have d1 : ((s.allocs ++ [some (1, v1)]) ++ [some (1, v2)])[s.allocs.length]? =
        some (some (1, v1)) := by
      rw [List.getElem?_append_left
        (by simp only [List.length_append, List.length_cons, List.length_nil]; omega)]
      exact List.getElem?_concat_length s.allocs (some (1, v1))
    have d2 : ((s.allocs ++ [some (1, v1)]) ++ [some (1, v2)])[(s.allocs ++
        [some (1, v1)]).length]? = some (some (1, v2)) :=
      List.getElem?_concat_length _ _
    simp only [Gc.eq, Gc.deref, Gc.new]
    rw [d1, d2]
    simp [h]

/-- C5 witness: the theorem at two fresh allocations of the equal value 5,
plus a clone of a live handle. -/
theorem C5_witness :
    (((5 : Int) == 5) = true) ∧
    (Gc.ptr_eq (Gc.clone (⟨[some (1, (5 : Int))]⟩ : Store Int) (⟨0⟩ : Gc 0 Int)).1
      (⟨0⟩ : Gc 0 Int) = true ∧
     Gc.ptr_eq (Gc.new (Arena.new 0) (⟨[some (1, (5 : Int))]⟩ : Store Int) 5).1
       (Gc.new (Arena.new 0)
         (Gc.new (Arena.new 0) (⟨[some (1, (5 : Int))]⟩ : Store Int) 5).2 5).1 = false ∧
     Gc.eq (fun x y => x == y)
       (Gc.new (Arena.new 0)
         (Gc.new (Arena.new 0) (⟨[some (1, (5 : Int))]⟩ : Store Int) 5).2 5).2
       (Gc.new (Arena.new 0) (⟨[some (1, (5 : Int))]⟩ : Store Int) 5).1
       (Gc.new (Arena.new 0)
         (Gc.new (Arena.new 0) (⟨[some (1, (5 : Int))]⟩ : Store Int) 5).2 5).1 =
       some true) :=
  ⟨by decide, C5_theorem 0 Int (Arena.new 0) (fun x y => x == y)
    ⟨[some (1, 5)]⟩ ⟨0⟩ 5 5 (by decide)⟩

/-- C4: cloning a `Gc<RefCell<T>>` handle aliases the same storage
(`ptr_eq` true), and an interior write through either the clone or the
original is observed by a subsequent interior read through the other handle —
the same storage, not a copy. -/
theorem C4_theorem (brand : Nat) (T : Type) (s : Store (RefCell brand T))
    (g : Gc brand (RefCell brand T)) (n : Nat) (c : RefCell brand T) (x : T)
    (hg : s.allocs[g.addr]? = some (some (n, c))) (hf : c.flag = 0) :
    Gc.ptr_eq (Gc.clone s g).1 g = true ∧
    (∃ s2, Gc.set_interior (Gc.clone s g).2 (Gc.clone s g).1 x = PanicOr.ok s2 ∧
      Gc.read_interior s2 g = PanicOr.ok x) ∧
    (∃ s3, Gc.set_interior (Gc.clone s g).2 g x = PanicOr.ok s3 ∧
      Gc.read_interior s3 (Gc.clone s g).1 = PanicOr.ok x) := by
  have hlt : g.addr < s.allocs.length := by
    rcases List.getElem?_eq_some.mp hg with ⟨hh, _⟩
    exact hh
  have hclone : Gc.clone s g =
      (⟨g.addr⟩, ⟨s.allocs.set g.addr (some (n + 1, c))⟩) := by
    simp [Gc.clone, hg]
  have h1 : (s.allocs.set g.addr (some (n + 1, c)))[g.addr]? =
      some (some (n + 1, c)) :=
    List.getElem?_set_self hlt
  have hbm : c.borrow_mut = PanicOr.ok ⟨-1, c.value⟩ :=
    RefCell.borrow_mut_of_zero c hf
  have hset : ∀ gg : Gc brand (RefCell brand T), gg.addr = g.addr →
      Gc.set_interior ⟨s.allocs.set g.addr (some (n + 1, c))⟩ gg x =
        PanicOr.ok ⟨(s.allocs.set g.addr (some (n + 1, c))).set g.addr
          (some (n + 1, ⟨0, x⟩))⟩ := by
    intro gg hgg
    simp [Gc.set_interior, hgg, h1, hbm, RefCell.deref_mut_set, RefCell.drop_ref_mut]
  have hread : ∀ gg : Gc brand (RefCell brand T), gg.addr = g.addr →
      Gc.read_interior ⟨(s.allocs.set g.addr (some (n + 1, c))).set g.addr
        (some (n + 1, ⟨0, x⟩))⟩ gg = PanicOr.ok x := by
    intro gg hgg
    have h2 : (s.allocs.set g.addr
        (some (n + 1, (⟨0, x⟩ : RefCell brand T))))[g.addr]? =
        some (some (n + 1, ⟨0, x⟩)) :=
      List.getElem?_set_self hlt
    have hb : (⟨0, x⟩ : RefCell brand T).borrow = PanicOr.ok ⟨0 + 1, x⟩ :=
      RefCell.borrow_of_nonneg _ (by norm_num)
    simp [Gc.read_interior, hgg, List.set_set, h2, hb, RefCell.guard_deref]
  rw [hclone]
  exact ⟨by simp [Gc.ptr_eq], ⟨_, hset ⟨g.addr⟩ rfl, hread g rfl⟩,
    ⟨_, hset g rfl, hread ⟨g.addr⟩ rfl⟩⟩

/-- C4 witness: the spec's example — a store holding one `Gc<RefCell<Int>>`
allocation with interior value 0; write 1 through the clone, the original
reads 1 (and symmetrically). -/
theorem C4_witness :
    ((⟨[some (1, (⟨0, 0⟩ : RefCell 0 Int))]⟩ : Store
        (RefCell 0 Int)).allocs[(⟨0⟩ : Gc 0 (RefCell 0 Int)).addr]? =
      some (some (1, ⟨0, 0⟩))) ∧
    ((⟨0, (0 : Int)⟩ : RefCell 0 Int).flag = 0) ∧
    (Gc.ptr_eq (Gc.clone (⟨[some (1, (⟨0, 0⟩ : RefCell 0 Int))]⟩ : Store
        (RefCell 0 Int)) (⟨0⟩ : Gc 0 (RefCell 0 Int))).1
      (⟨0⟩ : Gc 0 (RefCell 0 Int)) = true ∧
     (∃ s2, Gc.set_interior
        (Gc.clone (⟨[some (1, (⟨0, 0⟩ : RefCell 0 Int))]⟩ : Store (RefCell 0 Int))
          (⟨0⟩ : Gc 0 (RefCell 0 Int))).2
        (Gc.clone (⟨[some (1, (⟨0, 0⟩ : RefCell 0 Int))]⟩ : Store (RefCell 0 Int))
          (⟨0⟩ : Gc 0 (RefCell 0 Int))).1
        1 = PanicOr.ok s2 ∧
       Gc.read_interior s2 (⟨0⟩ : Gc 0 (RefCell 0 Int)) = PanicOr.ok 1) ∧
     (∃ s3, Gc.set_interior
        (Gc.clone (⟨[some (1, (⟨0, 0⟩ : RefCell 0 Int))]⟩ : Store (RefCell 0 Int))
          (⟨0⟩ : Gc 0 (RefCell 0 Int))).2
        (⟨0⟩ : Gc 0 (RefCell 0 Int)) 1 = PanicOr.ok s3 ∧
       Gc.read_interior s3
        (Gc.clone (⟨[some (1, (⟨0, 0⟩ : RefCell 0 Int))]⟩ : Store (RefCell 0 Int))
          (⟨0⟩ : Gc 0 (RefCell 0 Int))).1 =
       PanicOr.ok 1)) :=
  ⟨by decide, by decide,
    C4_theorem 0 Int ⟨[some (1, ⟨0, 0⟩)]⟩ ⟨0⟩ 1 ⟨0, 0⟩ 1 (by decide) (by decide)⟩

/-- C1 (the code evaluated at the failing input): two independently created
arenas receive the same brand — `Arena::new` has no freshness mechanism, the
brand (the `'gc` lifetime) is chosen at the call site with no constraint
relating it to any other live arena — so `Arena.new 0 = Arena.new 0`
type-checks and holds, and a `Gc` allocated under the first arena is accepted
(type-checks and dereferences) by `use_under` in a context expecting the
second arena's brand.  Nothing is statically rejected. -/
theorem C1_theorem :
    Arena.new 0 = Arena.new 0 ∧
    use_under (Arena.new 0) (Gc.new (Arena.new 0) (Store.empty : Store Int) 42).2
      (Gc.new (Arena.new 0) (Store.empty : Store Int) 42).1 = some 42 :=
  ⟨rfl, rfl⟩

end EkoGc
